import Mathlib

/-!
Shallow embedding of `covid_abm/model.py` (the single-run Covid-ABM engine)
and verification of the specification's claims about it.

Modelling conventions:
* Python `dict`/`sc.odict` values become ordered `List`s; `sc.odict` keyed by
  `uid` is a `List Person` whose entries are replaced in place on key
  collision (`odictSet`).
* All randomness (the process-wide random stream) is an `Oracle` of
  deterministic functions indexed by a stream-position counter `ctr`
  threaded through the state; each primitive draw advances the counter.
* `None`-valued date fields are `Option Int`; a Python comparison
  `t >= None` raises `TypeError`, embedded as `Except.error .typeError`.
* Out-of-range positional indexing of an odict or numpy array raises,
  embedded as `.indexError`; `dict.pop` of a missing key as `.keyError`.
* numpy float arrays of daily counts become `List ℚ`; a NaN entry of the
  external data series is `none` in a `List (Option ℚ)`.
-/

set_option linter.unusedVariables false

namespace CovidAbm

/-- Runtime errors the embedded Python fragment can raise. -/
inductive PyErr where
  | typeError
  | indexError
  | keyError
  deriving DecidableEq, Repr

/-- Keys of the result series stored in the `self.results` dict. -/
inductive ResKey where
  | t
  | n_susceptible
  | n_exposed
  | n_infectious
  | n_recovered
  | infections
  | tests
  | diagnoses
  | recoveries
  | cum_exposed
  | cum_tested
  | cum_diagnosed
  deriving DecidableEq, Repr

/-- The `self.results` dict: one numpy array per series key, plus the
readiness flag and the optional stored likelihood scalar. -/
structure Results where
  series : ResKey → List ℚ
  ready : Bool
  likelihood : Option ℚ

/-- Entry update `arr[t] += 1` on series `k`. -/
def Results.inc (r : Results) (k : ResKey) (t : Nat) : Results :=
  { r with series := fun k2 =>
      if k2 = k then (r.series k).set t ((r.series k).getD t 0 + 1) else r.series k2 }

/-- Entry update `arr[t] = v` on series `k`. -/
def Results.setVal (r : Results) (k : ResKey) (t : Nat) (v : ℚ) : Results :=
  { r with series := fun k2 =>
      if k2 = k then (r.series k).set t v else r.series k2 }

/-- Whole-series update `results[k] = l`. -/
def Results.setSeries (r : Results) (k : ResKey) (l : List ℚ) : Results :=
  { r with series := fun k2 => if k2 = k then l else r.series k2 }

/-- One agent (`Person.__init__`).  Every person shares the sim's `pars`
dict object in the source, so parameters are read from the sim state here
instead of being stored per person. -/
structure Person where
  uid : Nat
  age : ℚ
  sex : Nat
  crew : Bool
  contacts : ℚ
  on_ship : Bool
  alive : Bool
  exposed : Bool
  infectious : Bool
  diagnosed : Bool
  recovered : Bool
  date_exposed : Option Int
  date_infectious : Option Int
  date_diagnosed : Option Int
  date_recovered : Option Int
  deriving DecidableEq, Repr

/-- The parameter dict fields the model reads or writes. -/
structure Pars where
  n_guests : Nat
  n_crew : Nat
  contacts_guest : ℚ
  contacts_crew : ℚ
  r_contact : ℚ
  incub : ℚ
  incub_std : ℚ
  dur : ℚ
  dur_std : ℚ
  sensitivity : ℚ
  symptomatic : ℚ
  quarantine : Int
  quarantine_eff : ℚ
  testing_change : Int
  testing_symptoms : ℚ
  n_days : Int
  seed : Int
  n : Nat
  parallelized : Option Nat
  deriving DecidableEq, Repr

/-- The external observed data (loaded outside `src`): per-day test counts
and per-day observed new diagnoses, with `none` for a NaN entry. -/
structure Data where
  new_tests : List (Option ℚ)
  new_positives : List (Option ℚ)
  deriving DecidableEq, Repr

/-- The process-wide random stream, as deterministic draw functions indexed
by the current stream position.  The sampling primitives themselves
(`cov_ut.choose_people`, `cov_ut.bt`, `pl.normal`, `pl.randint`,
`np.random.poisson`, `cov_pars.get_age_sex`) are outside `src`; the oracle
supplies their draws. -/
structure Oracle where
  age_sex : Nat → Bool → ℚ × Nat
  randint : Nat → Nat
  poisson : Nat → ℚ → Nat
  bt : Nat → ℚ → Bool
  normal : Nat → ℚ → ℚ → ℚ
  choose_people : Nat → Nat → Nat → List Nat
  choose_people_weighted : Nat → List ℚ → ℚ → List Nat

/-- Modelled from the spec: the external statistical routine
`cov_ps.poisson_test` (probability of an observed count under an
expected-count hypothesis) and the natural logarithm `pl.log`, both outside
`src`; modelled as arbitrary deterministic rational-valued functions. -/
structure Ext where
  poisson_test : ℚ → ℚ → ℚ
  log : ℚ → ℚ

/-- The mutable state of a `Sim` object. -/
structure SimState where
  pars : Pars
  people : List Person
  off_ship : List Person
  results : Results
  ctr : Nat

/-- Python 3 `round` (round half to even) on a rational. -/
def pyRound (x : ℚ) : Int :=
  let f := ⌊x⌋
  let r := x - f
  if r < 1/2 then f
  else if 1/2 < r then f + 1
  else if f % 2 = 0 then f else f + 1

/-- Assignment `d[person.uid] = person` on an insertion-ordered dict keyed
by uid: replace in place when the key already exists, append otherwise. -/
def odictSet (ps : List Person) (p : Person) : List Person :=
  if ps.any (fun q => q.uid == p.uid) then
    ps.map (fun q => if q.uid == p.uid then p else q)
  else ps ++ [p]

/-- Helper for `cumsum` carrying the running total. -/
def cumsumFrom (acc : ℚ) : List ℚ → List ℚ
  | [] => []
  | x :: xs => (acc + x) :: cumsumFrom (acc + x) xs

/-- `pl.cumsum` on a one-dimensional array. -/
def cumsum (l : List ℚ) : List ℚ := cumsumFrom 0 l

/-- `Sim.npts`: `int(n_days + 1)` time points. -/
def npts (p : Pars) : Nat := (p.n_days + 1).toNat

/-- `Sim.init_results`: zero-filled arrays of length `npts`, readiness flag
cleared, no likelihood entry. -/
def init_results (p : Pars) : Results :=
  { series := fun _ => List.replicate (npts p) 0, ready := false, likelihood := none }

/-- `Person.__init__` body: static attributes and fresh state flags. -/
def Person.create (pars : Pars) (uid : Nat) (age : ℚ) (sex : Nat) (crew : Bool) : Person :=
  { uid := uid, age := age, sex := sex, crew := crew
    contacts := if crew then pars.contacts_crew else pars.contacts_guest
    on_ship := true, alive := true
    exposed := false, infectious := false, diagnosed := false, recovered := false
    date_exposed := none, date_infectious := none
    date_diagnosed := none, date_recovered := none }

/-- The seeding assignments of `Sim.init_people`: the seeds are forced into
Exposed + Infectious at day 0 but are never given a `date_recovered`. -/
def seedPerson (p : Person) : Person :=
  { p with exposed := true, infectious := true
           date_exposed := some 0, date_infectious := some 0 }

/-- `Sim.init_people`: create crew first and then guests, inserting each
person into the uid-keyed odict, then force the first `seed_infections`
positions into the seeded state (positional indexing `self.people[i]`,
raising when `i` is out of range). -/
def init_people (pars : Pars) (oracle : Oracle) (ctr : Nat) (seed_infections : Nat) :
    Except PyErr (List Person × Nat) :=
  let flags := List.replicate pars.n_crew true ++ List.replicate pars.n_guests false
  let built := flags.foldl (fun (acc : List Person × Nat) is_crew =>
    let as := oracle.age_sex acc.2 is_crew
    let uid := oracle.randint (acc.2 + 1)
    let person := Person.create pars uid as.1 as.2 is_crew
    (odictSet acc.1 person, acc.2 + 2)) ([], ctr)
  if seed_infections ≤ built.1.length then
    .ok (built.1.mapIdx (fun i p => if i < seed_infections then seedPerson p else p), built.2)
  else .error .indexError

/-- Modelled from the spec: `cov_ut.choose_people(max_ind, n)` (not under
`src`) returns `n` indices drawn from `range(max_ind)`; the oracle supplies
the draws and the model clamps them into range. -/
def choose_people (oracle : Oracle) (ctr max_ind n : Nat) : List Nat :=
  ((oracle.choose_people ctr max_ind n).take n).map (fun x => x % max_ind)

/-- Modelled from the spec: `cov_ut.choose_people_weighted(probs, n)` (not
under `src`) chooses `n` distinct indices into `probs` according to the
weights; the oracle supplies raw draws, clamped into range and
de-duplicated. -/
def choose_people_weighted (oracle : Oracle) (ctr : Nat) (probs : List ℚ) (n : ℚ) :
    List Nat :=
  (((oracle.choose_people_weighted ctr probs n).map (fun x => x % probs.length)).dedup).take
    n.floor.toNat

/-- The exposed-block of the person loop (lines 204-209): count the person
as exposed for the day and, if not yet infectious, compare the day against
`date_infectious` (raising `TypeError` when that date is `None`) and become
infectious when due. -/
def exposedStep (t i : Nat) (s : SimState) : Except PyErr SimState :=
  match s.people.get? i with
  | none => .ok s
  | some p =>
    if p.exposed then
      let s1 := { s with results := s.results.inc .n_exposed t }
      if p.infectious then .ok s1
      else
        match p.date_infectious with
        | none => .error .typeError
        | some di =>
          if di ≤ (t : Int) then
            .ok { s1 with people := s1.people.set i { p with infectious := true } }
          else .ok s1
    else .ok s

/-- One contact attempt of the transmission loop (lines 223-234): Bernoulli
trial with probability `r_contact`; on success look up the target by
position and, unless the target is already exposed, count a new infection,
expose the target and overwrite its three scheduled dates from fresh
incubation/duration draws. -/
def contactStep (oracle : Oracle) (t : Nat) (s : SimState) (ci : Nat) :
    Except PyErr SimState :=
  let exposure := oracle.bt s.ctr s.pars.r_contact
  let s1 := { s with ctr := s.ctr + 1 }
  if exposure then
    match s1.people.get? ci with
    | none => .error .indexError
    | some target =>
      if target.exposed then .ok s1
      else
        let incub_dist := pyRound (oracle.normal s1.ctr s1.pars.incub s1.pars.incub_std)
        let dur_dist := pyRound (oracle.normal (s1.ctr + 1) s1.pars.dur s1.pars.dur_std)
        .ok { s1 with
              ctr := s1.ctr + 2
              results := s1.results.inc .infections t
              people := s1.people.set ci
                { target with exposed := true
                              date_exposed := some (t : Int)
                              date_infectious := some ((t : Int) + incub_dist)
                              date_recovered := some ((t : Int) + incub_dist + dur_dist) } }
  else .ok s1

/-- The infectious-block of the person loop (lines 212-236): first the
recovery check against `date_recovered` (raising `TypeError` when that
date is `None`, as happens for seed agents); a recovering person clears
exposed/infectious, sets recovered and contributes no contacts; otherwise
the person is counted infectious and attempts Poisson-many contacts. -/
def infectiousStep (oracle : Oracle) (t i : Nat) (s : SimState) : Except PyErr SimState :=
  match s.people.get? i with
  | none => .ok s
  | some p =>
    if p.infectious then
      match p.date_recovered with
      | none => .error .typeError
      | some dr =>
        if dr ≤ (t : Int) then
          .ok { s with
                people := s.people.set i
                  { p with exposed := false, infectious := false, recovered := true }
                results := s.results.inc .recoveries t }
        else
          let s1 := { s with results := s.results.inc .n_infectious t }
          let ncontacts := oracle.poisson s1.ctr p.contacts
          let s2 := { s1 with ctr := s1.ctr + 1 }
          let contact_inds := choose_people oracle s2.ctr s2.people.length ncontacts
          let s3 := { s2 with ctr := s2.ctr + 1 }
          contact_inds.foldlM (contactStep oracle t) s3
    else .ok s

/-- The recovered-count at the end of the person loop (lines 239-240). -/
def recoveredCount (t i : Nat) (s : SimState) : SimState :=
  match s.people.get? i with
  | none => s
  | some p =>
    if p.recovered then { s with results := s.results.inc .n_recovered t } else s

/-- One iteration of `for person in self.people.values()` (lines 195-240),
acting on the person at position `i` and accumulating that person's
test-selection weight.  The weight is recorded from the person's state at
the start of its own iteration, before its updates. -/
def personStep (oracle : Oracle) (t : Nat) (st : SimState × List ℚ) (i : Nat) :
    Except PyErr (SimState × List ℚ) :=
  match st.1.people.get? i with
  | none => .ok st
  | some p => do
    let tps := st.2 ++ [if p.infectious then st.1.pars.symptomatic else (1 : ℚ)]
    let s1 ← exposedStep t i st.1
    let s2 ← infectiousStep oracle t i s1
    .ok (recoveredCount t i s2, tps)

/-- One tested person (lines 251-258): positional lookup of the selected
agent; only an infectious agent consumes a sensitivity Bernoulli draw, and a
true positive is counted, marked diagnosed and queued for removal. -/
def testOne (oracle : Oracle) (t : Nat) (st : SimState × List Nat) (ti : Nat) :
    Except PyErr (SimState × List Nat) :=
  match st.1.people.get? ti with
  | none => .error .indexError
  | some tested =>
    if tested.infectious then
      let s1 := { st.1 with ctr := st.1.ctr + 1 }
      if oracle.bt st.1.ctr st.1.pars.sensitivity then
        .ok ({ s1 with results := s1.results.inc .diagnoses t
                       people := s1.people.set ti { tested with diagnosed := true } },
             st.2 ++ [tested.uid])
      else .ok (s1, st.2)
    else .ok (st.1, st.2)

/-- Deferred removal `self.off_ship[uid] = self.people.pop(uid)` (lines
259-260) of one queued uid. -/
def popOne (s : SimState) (uid : Nat) : Except PyErr SimState :=
  match s.people.find? (fun q => q.uid == uid) with
  | none => .error .keyError
  | some p =>
    .ok { s with people := s.people.eraseP (fun q => q.uid == uid)
                 off_ship := odictSet s.off_ship p }

/-- The daily testing block (lines 242-260): testing happens only when the
day index is within the external daily-test series and that day's value is
defined (non-NaN) and non-zero; otherwise the block is a no-op.  On a
testing day the test count is recorded, the accumulated weights are
normalized, targets are drawn, each is resolved by `testOne`, and the
queued diagnosed agents are then popped off the ship. -/
def testingStep (oracle : Oracle) (data : Data) (t : Nat) (s : SimState) (tps : List ℚ) :
    Except PyErr SimState :=
  if t < data.new_tests.length then
    match data.new_tests.getD t none with
    | none => .ok s
    | some n_tests =>
      if n_tests = 0 then .ok s
      else do
        let s1 := { s with results := s.results.setVal .tests t n_tests }
        let total := tps.sum
        let probs := tps.map (fun x => x / total)
        let test_inds := choose_people_weighted oracle s1.ctr probs n_tests
        let s2 := { s1 with ctr := s1.ctr + 1 }
        let res ← test_inds.foldlM (testOne oracle t) (s2, ([] : List Nat))
        res.2.foldlM popOne res.1
  else .ok s

/-- The quarantine intervention (lines 263-266). -/
def quarantineStep (t : Nat) (s : SimState) : SimState :=
  if (t : Int) = s.pars.quarantine then
    let ppl := s.people.map (fun p => { p with contacts := p.contacts * s.pars.quarantine_eff })
    { s with people := ppl }
  else s

/-- The testing-change intervention (lines 269-271), mutating the shared
`symptomatic` parameter. -/
def testingChangeStep (t : Nat) (s : SimState) : SimState :=
  if (t : Int) = s.pars.testing_change then
    { s with pars := { s.pars with symptomatic := s.pars.symptomatic * s.pars.testing_symptoms } }
  else s

/-- Storing the other results (lines 277-278): the day index, and
`n_susceptible[t] = len(self.people) - n_exposed[t]`, evaluated after the
day's diagnosis removals. -/
def storeStep (t : Nat) (s : SimState) : SimState :=
  let s1 := { s with results := s.results.setVal .t t (t : ℚ) }
  let v := (s1.people.length : ℚ) - (s1.results.series .n_exposed).getD t 0
  { s1 with results := s1.results.setVal .n_susceptible t v }

/-- The body of one simulated day before the final stores: the person loop,
the testing block, quarantine and the testing change (the evacuation hook
is an explicit no-op). -/
def dayMain (oracle : Oracle) (data : Data) (t : Nat) (s : SimState) :
    Except PyErr SimState := do
  let st ← (List.range s.people.length).foldlM (personStep oracle t) (s, ([] : List ℚ))
  let s2 ← testingStep oracle data t st.1 st.2
  .ok (testingChangeStep t (quarantineStep t s2))

/-- One full simulated day `t`. -/
def dayStep (oracle : Oracle) (data : Data) (s : SimState) (t : Nat) :
    Except PyErr SimState :=
  (dayMain oracle data t s).map (storeStep t)

/-- Computing the cumulative results after the day loop (lines 281-283). -/
def cumStep (s : SimState) : SimState :=
  let r := s.results
  let r1 := r.setSeries .cum_exposed (cumsum (r.series .infections))
  let r2 := r1.setSeries .cum_tested (cumsum (r1.series .tests))
  let r3 := r2.setSeries .cum_diagnosed (cumsum (r2.series .diagnoses))
  { s with results := r3 }

/-- `Sim.run` up to and including the cumulative sums, with the readiness
flag still clear: reset results and people, run every day, then cumsum. -/
def runBody (oracle : Oracle) (data : Data) (s : SimState) (seed_infections : Nat) :
    Except PyErr SimState := do
  let r := init_results s.pars
  let pc ← init_people s.pars oracle s.ctr seed_infections
  let s0 := { s with results := r, people := pc.1, off_ship := [], ctr := pc.2 }
  let s1 ← (List.range (npts s.pars)).foldlM (dayStep oracle data) s0
  .ok (cumStep s1)

/-- Setting `self.results['ready'] = True` (line 290). -/
def setReady (s : SimState) : SimState :=
  { s with results := { s.results with ready := true } }

/-- `Sim.run` with `calc_likelihood=False`. -/
def runNoCalc (oracle : Oracle) (data : Data) (s : SimState) (seed_infections : Nat) :
    Except PyErr SimState :=
  (runBody oracle data s seed_infections).map setReady

/-- The scoring loop of `Sim.likelihood` (lines 319-325), walking the
observed daily-diagnosis series with its index: NaN entries are skipped,
a defined entry at index `d` reads `results['diagnoses'][d]` (raising when
`d` is beyond the array) and adds `log(poisson_test(datum, estimate))`. -/
def scoreGo (ext : Ext) (dgs : List ℚ) : Nat → ℚ → List (Option ℚ) → Except PyErr ℚ
  | _, acc, [] => .ok acc
  | d, acc, datum :: rest =>
    match datum with
    | none => scoreGo ext dgs (d + 1) acc rest
    | some v =>
      match dgs.get? d with
      | none => .error .indexError
      | some est => scoreGo ext dgs (d + 1) (acc + ext.log (ext.poisson_test v est)) rest

/-- The log-likelihood scalar computed from the modeled diagnoses series
and the observed data. -/
def score (ext : Ext) (data : Data) (dgs : List ℚ) : Except PyErr ℚ :=
  scoreGo ext dgs 0 0 data.new_positives

/-- `Sim.likelihood`: when the readiness flag is clear, first re-run the
simulation with `calc_likelihood=False` (and the default single seed
infection); then compute the score and store it in the results. -/
def likelihood (oracle : Oracle) (ext : Ext) (data : Data) (s : SimState) :
    Except PyErr (ℚ × SimState) := do
  let s1 ← if s.results.ready then .ok s else runNoCalc oracle data s 1
  let ll ← score ext data (s1.results.series .diagnoses)
  .ok (ll, { s1 with results := { s1.results with likelihood := some ll } })

/-- `Sim.run` with `calc_likelihood=True`: the readiness flag is still
false when `likelihood` is invoked at line 287, so `likelihood` re-runs
the whole simulation before scoring. -/
def runCalc (oracle : Oracle) (ext : Ext) (data : Data) (s : SimState)
    (seed_infections : Nat) : Except PyErr SimState := do
  let s1 ← runBody oracle data s seed_infections
  let r ← likelihood oracle ext data s1
  .ok (setReady r.2)

/-- `Sim.run`. -/
def run (oracle : Oracle) (ext : Ext) (data : Data) (s : SimState)
    (seed_infections : Nat) (calc_likelihood : Bool) : Except PyErr SimState :=
  if calc_likelihood then runCalc oracle ext data s seed_infections
  else runNoCalc oracle data s seed_infections

/-- `single_run`: run with all defaults (one seed infection). -/
def single_run (oracle : Oracle) (data : Data) (s : SimState) : Except PyErr SimState :=
  runNoCalc oracle data s 1

/-- Replica `i` of `multi_run`: a deep copy of the base sim whose seed is
incremented by the replica index and whose population-size parameter is
integer-divided by the replica count. -/
def replicaAt (orig : SimState) (n i : Nat) : SimState :=
  { orig with pars := { orig.pars with seed := orig.pars.seed + (i : Int)
                                       n := orig.pars.n / n } }

/-- The `sims` list built by `multi_run` (lines 429-434). -/
def multi_run_sims (orig : SimState) (n : Nat) : List SimState :=
  (List.range n).map (replicaAt orig n)

/-- Elementwise sum of two result arrays. -/
def addSeries (a b : List ℚ) : List ℚ := a.zipWith (fun x y => x + y) b

/-- Merging one replica's results dict into the output's (lines 444-446):
every key except the day index is summed.  The boolean readiness flags add
to a truthy value whenever either is set; a likelihood entry present in the
replica but absent in the output would raise `KeyError`. -/
def mergeResults (a b : Results) : Except PyErr Results := do
  let lk ← match b.likelihood with
           | none => .ok a.likelihood
           | some x =>
             match a.likelihood with
             | none => .error .keyError
             | some y => .ok (some (x + y))
  .ok { series := fun k =>
          if k = ResKey.t then a.series k else addSeries (a.series k) (b.series k)
        ready := a.ready || b.ready
        likelihood := lk }

/-- Merging one replica into the output sim (lines 442-446): union of the
people odicts (replica entries override on key collision) and summed
results. -/
def mergeOne (out s2 : SimState) : Except PyErr SimState := do
  let r ← mergeResults out.results s2.results
  .ok { out with people := s2.people.foldl odictSet out.people, results := r }

/-- `multi_run`: build the replicas, run each one (`single_run`, hence with
one seed infection), take the first finished sim as the output, record the
parallelization and multiply the divided population-size parameter back by
the replica count, then merge the remaining replicas in. -/
def multi_run (oracles : Nat → Oracle) (data : Data) (orig : SimState) (n : Nat) :
    Except PyErr SimState := do
  let finished ← (List.range n).mapM
    (fun i => single_run (oracles i) data (replicaAt orig n i))
  match finished with
  | [] => .error .indexError
  | s0 :: rest =>
    let out := { s0 with pars := { s0.pars with parallelized := some n
                                                n := s0.pars.n * n } }
    rest.foldlM mergeOne out



/-- Projection of the parameter record that forgets the one field the day
loop mutates (`symptomatic`). -/
def parsCore (p : Pars) : Pars := { p with symptomatic := 0 }

/-- State invariant threaded through the day loop: the parameters other
than `symptomatic` are fixed, and every result series keeps its length. -/
def StInv (c : Pars) (L : ResKey → Nat) (s : SimState) : Prop :=
  parsCore s.pars = c ∧ ∀ k, (s.results.series k).length = L k

/-- A simple concrete deterministic random stream used by the scenarios
below: uid draws return the stream position, every Bernoulli trial
succeeds, normal draws return their mean, Poisson draws return 1, uniform
choice picks index 1 and weighted choice picks index 0. -/
def oracleA : Oracle :=
  { age_sex := fun _ _ => (30, 0)
    randint := fun c => c
    poisson := fun _ _ => 1
    bt := fun _ _ => true
    normal := fun _ m _ => m
    choose_people := fun _ _ n => List.replicate n 1
    choose_people_weighted := fun _ _ _ => [0] }

/-- Scenario A parameters: 2 non-crew agents, contact rate 1 for all,
`r_contact = 1`, incubation 0 with std 0, duration 1 with std 0, run
length 3 days, interventions never triggered. -/
def parsA : Pars :=
  { n_guests := 2, n_crew := 0, contacts_guest := 1, contacts_crew := 1
    r_contact := 1, incub := 0, incub_std := 0, dur := 1, dur_std := 0
    sensitivity := 1, symptomatic := 1, quarantine := -5, quarantine_eff := 1
    testing_change := -5, testing_symptoms := 1, n_days := 3, seed := 0
    n := 2, parallelized := none }

/-- Scenario A data: no testing data supplied. -/
def dataA : Data := { new_tests := [], new_positives := [] }

/-- A fresh Scenario A sim. -/
def simA : SimState :=
  { pars := parsA, people := [], off_ship := [], results := init_results parsA, ctr := 0 }

/-- A concrete infectious agent with all scheduled dates set, not due to
recover until day 10. -/
def personInf : Person :=
  { uid := 11, age := 30, sex := 0, crew := false, contacts := 0
    on_ship := true, alive := true, exposed := true, infectious := true
    diagnosed := false, recovered := false
    date_exposed := some 0, date_infectious := some 0, date_diagnosed := none
    date_recovered := some 10 }

/-- A concrete fully susceptible agent. -/
def personSus : Person :=
  { uid := 22, age := 30, sex := 0, crew := false, contacts := 0
    on_ship := true, alive := true, exposed := false, infectious := false
    diagnosed := false, recovered := false
    date_exposed := none, date_infectious := none, date_diagnosed := none
    date_recovered := none }

/-- A stream under which the infectious agent draws no contacts, every
Bernoulli trial succeeds and the weighted test choice picks index 0. -/
def oracleC2 : Oracle :=
  { age_sex := fun _ _ => (30, 0)
    randint := fun c => c
    poisson := fun _ _ => 0
    bt := fun _ _ => true
    normal := fun _ m _ => m
    choose_people := fun _ _ _ => []
    choose_people_weighted := fun _ _ _ => [0] }

/-- One test available on day 0. -/
def dataC2 : Data := { new_tests := [some 1], new_positives := [] }

/-- A mid-run state with one infectious agent and one susceptible agent. -/
def simC2 : SimState :=
  { pars := parsA, people := [personInf, personSus], off_ship := []
    results := init_results parsA, ctr := 0 }

/-- The infectious agent, due to recover on day 0. -/
def personRecDue : Person := { personInf with date_recovered := some 0 }

/-- A mid-run state with one infectious agent due to recover. -/
def simC3 : SimState :=
  { pars := parsA, people := [personRecDue], off_ship := []
    results := init_results parsA, ctr := 0 }

/-- A base configuration for the ensemble runner with population-size
parameter 10 (not divisible by 4) and an empty day range. -/
def parsM : Pars := { parsA with n := 10, n_days := -1, n_guests := 1 }

/-- The base sim for the ensemble counterexample. -/
def simM : SimState :=
  { pars := parsM, people := [], off_ship := [], results := init_results parsM, ctr := 0 }

/-- A stream whose uid draws always collide on the same value. -/
def oracle8 : Oracle := { oracleA with randint := fun _ => 7 }

/-- A recovered agent whose exposed flag was cleared at recovery. -/
def personRecTarget : Person := { personSus with recovered := true }

/-- A mid-run state with an infectious source and a recovered agent that
can be drawn as a contact target. -/
def simC9 : SimState :=
  { pars := parsA, people := [personInf, personRecTarget], off_ship := []
    results := init_results parsA, ctr := 0 }

/-- Concrete stand-ins for the external statistical routine and log. -/
def extA : Ext := { poisson_test := fun _ _ => 3, log := fun _ => 5 }

/-- One defined observed diagnosis on day 0. -/
def dataPos : Data := { new_tests := [], new_positives := [some 1] }

/-- A completed-run results record (readiness flag set, one time point). -/
def resReady : Results := { series := fun _ => [0], ready := true, likelihood := none }

/-- A sim whose day loop has completed. -/
def simReady : SimState :=
  { pars := parsA, people := [], off_ship := [], results := resReady, ctr := 0 }

/-- The score the likelihood computes on `simReady` with `extA`: one
defined observed value against the modeled diagnoses entry 0. -/
def llA : ℚ := (0 : ℚ) + extA.log (extA.poisson_test 1 0)

/-- The same sim after the likelihood scalar is stored. -/
def simReadyAfter : SimState :=
  { simReady with results := { simReady.results with likelihood := some llA } }

/-- A daily-test series with one defined, one missing and one zero entry. -/
def dataShort : Data := { new_tests := [some 1, none, some 0], new_positives := [] }

/-- The final state of a completed seed-free Scenario A run. -/
def C4resState : SimState := ((runNoCalc oracleA dataA simA 0).toOption).getD simA

/-- The merged output of the 4-replica ensemble counterexample. -/
def C6out : SimState := ((multi_run (fun _ => oracleA) dataA simM 4).toOption).getD simM

theorem inc_series_len (r : Results) (k k2 : ResKey) (t : Nat) :
    ((Results.inc r k t).series k2).length = (r.series k2).length := by
  simp only [Results.inc]
  split
  · next h => subst h; simp [List.length_set]
  · rfl

theorem setVal_series_len (r : Results) (k k2 : ResKey) (t : Nat) (v : ℚ) :
    ((Results.setVal r k t v).series k2).length = (r.series k2).length := by
  simp only [Results.setVal]
  split
  · next h => subst h; simp [List.length_set]
  · rfl

theorem foldlM_ok_inv {σ α : Type} {P : σ → Prop} {f : σ → α → Except PyErr σ}
    (hf : ∀ s a s2, P s → f s a = .ok s2 → P s2) :
    ∀ (l : List α) (s s2 : σ), P s → l.foldlM f s = .ok s2 → P s2 := by
  intro l
  induction l with
  | nil =>
    intro s s2 hP h
    simp only [List.foldlM_nil] at h
    cases h
    exact hP
  | cons a l ih =>
    intro s s2 hP h
    simp only [List.foldlM_cons] at h
    cases hfa : f s a with
    | error e => rw [hfa] at h; simp [Bind.bind, Except.bind] at h
    | ok s1 =>
      rw [hfa] at h
      simp only [Bind.bind, Except.bind] at h
      exact ih s1 s2 (hf s a s1 hP hfa) h

theorem StInv_mono {c : Pars} {L : ResKey → Nat} {s s2 : SimState}
    (hs : StInv c L s) (hp : s2.pars = s.pars)
    (hr : ∀ k, (s2.results.series k).length = (s.results.series k).length) :
    StInv c L s2 :=
  ⟨by rw [hp]; exact hs.1, fun k => (hr k).trans (hs.2 k)⟩

theorem exposedStep_inv {t i : Nat} {s s2 : SimState} {c : Pars} {L : ResKey → Nat}
    (h : exposedStep t i s = .ok s2) (hs : StInv c L s) : StInv c L s2 := by
  unfold exposedStep at h
  split at h
  all_goals try split at h
  all_goals try dsimp only at h
  all_goals try split at h
  all_goals try split at h
  all_goals try split at h
  all_goals try cases h
  all_goals try exact StInv_mono hs rfl (fun k => rfl)
  all_goals exact StInv_mono hs rfl (fun k => inc_series_len ..)

theorem contactStep_inv {oracle : Oracle} {t : Nat} {s s2 : SimState} {ci : Nat}
    {c : Pars} {L : ResKey → Nat}
    (h : contactStep oracle t s ci = .ok s2) (hs : StInv c L s) : StInv c L s2 := by
  unfold contactStep at h
  dsimp only at h
  split at h
  all_goals try split at h
  all_goals try split at h
  all_goals try cases h
  all_goals try exact StInv_mono hs rfl (fun k => rfl)
  all_goals exact StInv_mono hs rfl (fun k => inc_series_len ..)

theorem infectiousStep_inv {oracle : Oracle} {t i : Nat} {s s2 : SimState}
    {c : Pars} {L : ResKey → Nat}
    (h : infectiousStep oracle t i s = .ok s2) (hs : StInv c L s) : StInv c L s2 := by
  unfold infectiousStep at h
  dsimp only at h
  split at h
  · cases h; exact hs
  · split at h
    · split at h
      · cases h
      · split at h
        · cases h; exact StInv_mono hs rfl (fun k => inc_series_len ..)
        · refine foldlM_ok_inv (fun s a s2 hP hf => contactStep_inv hf hP) _ _ _ ?_ h
          exact StInv_mono hs rfl (fun k => inc_series_len ..)
    · cases h; exact hs

theorem recoveredCount_inv {t i : Nat} {s : SimState} {c : Pars} {L : ResKey → Nat}
    (hs : StInv c L s) : StInv c L (recoveredCount t i s) := by
  unfold recoveredCount
  split
  · exact hs
  · split
    · exact ⟨hs.1, fun k => (inc_series_len ..).trans (hs.2 k)⟩
    · exact hs

theorem personStep_inv {oracle : Oracle} {t : Nat} {st st2 : SimState × List ℚ} {i : Nat}
    {c : Pars} {L : ResKey → Nat}
    (h : personStep oracle t st i = .ok st2) (hs : StInv c L st.1) : StInv c L st2.1 := by
  unfold personStep at h
  split at h
  · cases h; exact hs
  · simp only [bind, Except.bind] at h
    split at h
    · cases h
    · rename_i s1 h1
      split at h
      · cases h
      · rename_i s3 h2
        cases h
        exact recoveredCount_inv (infectiousStep_inv h2 (exposedStep_inv h1 hs))

theorem testOne_inv {oracle : Oracle} {t : Nat} {st st2 : SimState × List Nat} {ti : Nat}
    {c : Pars} {L : ResKey → Nat}
    (h : testOne oracle t st ti = .ok st2) (hs : StInv c L st.1) : StInv c L st2.1 := by
  unfold testOne at h
  dsimp only at h
  split at h
  all_goals try split at h
  all_goals try split at h
  all_goals try cases h
  all_goals try exact StInv_mono hs rfl (fun k => rfl)
  all_goals exact StInv_mono hs rfl (fun k => inc_series_len ..)

theorem popOne_inv {s s2 : SimState} {uid : Nat} {c : Pars} {L : ResKey → Nat}
    (h : popOne s uid = .ok s2) (hs : StInv c L s) : StInv c L s2 := by
  unfold popOne at h
  split at h
  · cases h
  · cases h; exact hs

theorem testingStep_inv {oracle : Oracle} {data : Data} {t : Nat} {s s2 : SimState}
    {tps : List ℚ} {c : Pars} {L : ResKey → Nat}
    (h : testingStep oracle data t s tps = .ok s2) (hs : StInv c L s) : StInv c L s2 := by
  unfold testingStep at h
  split at h
  · split at h
    · cases h; exact hs
    · split at h
      · cases h; exact hs
      · simp only [bind, Except.bind] at h
        split at h
        · cases h
        · rename_i res hres
          have h1 : StInv c L res.1 := by
            refine foldlM_ok_inv (fun st a st2 hP hf => testOne_inv hf hP) _ _ _ ?_ hres
            exact StInv_mono hs rfl (fun k => setVal_series_len ..)
          refine foldlM_ok_inv (fun s a s2 hP hf => popOne_inv hf hP) _ _ _ h1 h
  · cases h; exact hs

theorem quarantineStep_inv {t : Nat} {s : SimState} {c : Pars} {L : ResKey → Nat}
    (hs : StInv c L s) : StInv c L (quarantineStep t s) := by
  unfold quarantineStep
  split
  · exact hs
  · exact hs

theorem parsCore_symptomatic (p : Pars) (x : ℚ) :
    parsCore { p with symptomatic := x } = parsCore p := rfl

theorem testingChangeStep_inv {t : Nat} {s : SimState} {c : Pars} {L : ResKey → Nat}
    (hs : StInv c L s) : StInv c L (testingChangeStep t s) := by
  unfold testingChangeStep
  split
  · exact ⟨(parsCore_symptomatic ..).trans hs.1, hs.2⟩
  · exact hs

theorem storeStep_inv {t : Nat} {s : SimState} {c : Pars} {L : ResKey → Nat}
    (hs : StInv c L s) : StInv c L (storeStep t s) := by
  refine ⟨hs.1, fun k => ?_⟩
  simp only [storeStep]
  exact (setVal_series_len ..).trans ((setVal_series_len ..).trans (hs.2 k))

theorem dayMain_inv {oracle : Oracle} {data : Data} {t : Nat} {s s2 : SimState}
    {c : Pars} {L : ResKey → Nat}
    (h : dayMain oracle data t s = .ok s2) (hs : StInv c L s) : StInv c L s2 := by
  unfold dayMain at h
  simp only [bind, Except.bind] at h
  split at h
  · cases h
  · rename_i st hst
    have h1 : StInv c L st.1 :=
      foldlM_ok_inv (fun st a st2 hP hf => personStep_inv hf hP) _ _ _ hs hst
    split at h
    · cases h
    · rename_i s3 h3
      cases h
      exact testingChangeStep_inv (quarantineStep_inv (testingStep_inv h3 h1))

theorem dayStep_ok {oracle : Oracle} {data : Data} {s s2 : SimState} {t : Nat}
    (h : dayStep oracle data s t = .ok s2) :
    ∃ s1, dayMain oracle data t s = .ok s1 ∧ s2 = storeStep t s1 := by
  unfold dayStep at h
  cases hh : dayMain oracle data t s with
  | error e => rw [hh] at h; simp [Except.map] at h
  | ok s1 =>
    rw [hh] at h
    simp only [Except.map, Except.ok.injEq] at h
    exact ⟨s1, rfl, h.symm⟩

theorem dayStep_inv {oracle : Oracle} {data : Data} {t : Nat} {s s2 : SimState}
    {c : Pars} {L : ResKey → Nat}
    (h : dayStep oracle data s t = .ok s2) (hs : StInv c L s) : StInv c L s2 := by
  obtain ⟨s1, h1, rfl⟩ := dayStep_ok h
  exact storeStep_inv (dayMain_inv h1 hs)

theorem cumsum_from_length (a : ℚ) (l : List ℚ) : (cumsumFrom a l).length = l.length := by
  induction l generalizing a with
  | nil => rfl
  | cons x xs ih => simp [cumsumFrom, ih]

theorem cumsum_length (l : List ℚ) : (cumsum l).length = l.length :=
  cumsum_from_length 0 l

theorem cumStep_series_len {s : SimState} {m : Nat}
    (hs : ∀ k, (s.results.series k).length = m) :
    ∀ k, ((cumStep s).results.series k).length = m := by
  intro key
  simp only [cumStep, Results.setSeries]
  by_cases h1 : key = ResKey.cum_diagnosed <;> by_cases h2 : key = ResKey.cum_tested <;>
    by_cases h3 : key = ResKey.cum_exposed <;>
    simp [h1, h2, h3, cumsum_length, hs]

theorem cumStep_pars (s : SimState) : (cumStep s).pars = s.pars := rfl

theorem runBody_inv {oracle : Oracle} {data : Data} {s s2 : SimState} {k : Nat}
    (h : runBody oracle data s k = .ok s2) :
    parsCore s2.pars = parsCore s.pars ∧
      ∀ key, (s2.results.series key).length = npts s.pars := by
  unfold runBody at h
  simp only [bind, Except.bind] at h
  split at h
  · cases h
  · rename_i pc hpc
    split at h
    · cases h
    · rename_i s1 h1
      cases h
      have h0 : StInv (parsCore s.pars) (fun _ => npts s.pars)
          { s with results := init_results s.pars, people := pc.1, off_ship := [], ctr := pc.2 } := by
        refine ⟨rfl, fun key => ?_⟩
        simp [init_results]
      have hinv : StInv (parsCore s.pars) (fun _ => npts s.pars) s1 :=
        foldlM_ok_inv (fun s a s2 hP hf => dayStep_inv hf hP) _ _ _ h0 h1
      exact ⟨hinv.1, cumStep_series_len hinv.2⟩

theorem runNoCalc_inv {oracle : Oracle} {data : Data} {s s2 : SimState} {k : Nat}
    (h : runNoCalc oracle data s k = .ok s2) :
    parsCore s2.pars = parsCore s.pars ∧
      ∀ key, (s2.results.series key).length = npts s.pars := by
  unfold runNoCalc at h
  cases h1 : runBody oracle data s k with
  | error e => rw [h1] at h; simp [Except.map] at h
  | ok s1 =>
    rw [h1] at h
    simp only [Except.map, Except.ok.injEq] at h
    subst h
    have hres := runBody_inv h1
    constructor
    · show parsCore s1.pars = parsCore s.pars
      exact hres.1
    · intro key
      show (s1.results.series key).length = npts s.pars
      exact hres.2 key


theorem get_set_self {α : Type} : ∀ (l : List α) (i : Nat) (a : α), i < l.length →
    (l.set i a).get? i = some a := by
  intro l
  induction l with
  | nil => intro i a h; exact absurd h (Nat.not_lt_zero i)
  | cons x xs ih =>
    intro i a h
    cases i with
    | zero => rfl
    | succ n => exact ih n a (Nat.lt_of_succ_lt_succ h)

theorem getD_set_self : ∀ (l : List ℚ) (i : Nat) (v : ℚ), i < l.length →
    (l.set i v).getD i 0 = v := by
  intro l
  induction l with
  | nil => intro i v h; exact absurd h (Nat.not_lt_zero i)
  | cons x xs ih =>
    intro i v h
    cases i with
    | zero => rfl
    | succ n => exact ih n v (Nat.lt_of_succ_lt_succ h)

theorem storeStep_people (t : Nat) (s : SimState) : (storeStep t s).people = s.people := rfl

theorem storeStep_series_n_exposed (t : Nat) (s : SimState) :
    (storeStep t s).results.series .n_exposed = s.results.series .n_exposed := rfl

theorem storeStep_series_n_susceptible (t : Nat) (s : SimState)
    (ht : t < (s.results.series .n_susceptible).length) :
    ((storeStep t s).results.series .n_susceptible).getD t 0
      = (s.people.length : ℚ) - (s.results.series .n_exposed).getD t 0 := by
  show ((s.results.series .n_susceptible).set t
      ((s.people.length : ℚ) - (s.results.series .n_exposed).getD t 0)).getD t 0 = _
  exact getD_set_self _ _ _ ht

/-- C1: Scenario A as specified (2 non-crew agents, 1 seed infection,
deterministic parameters, 3 days, no test data) does not complete: the
seeding code never sets `date_recovered` for the seed agent, and on day 0
the day loop evaluates `t >= person.date_recovered`, a Python 3 `TypeError`
(`int >= None`).  The claimed completed run with new-infections[0] = 1
never happens. -/
theorem scenarioA_seed_missing_date_recovered_raises :
    runNoCalc oracleA dataA simA 1 = .error .typeError := by rfl

/-- C2 counterexample: a day on which one agent is diagnosed and popped.
The recorded active-susceptible(0) + active-exposed(0) is 1, the size of
the active population after the removal, while the active population
immediately before that day's diagnosis removals had size 2. -/
theorem susceptible_plus_exposed_not_presize :
    ((dayStep oracleC2 dataC2 simC2 0).map (fun s2 =>
      (s2.results.series .n_susceptible).getD 0 0 + (s2.results.series .n_exposed).getD 0 0))
      = .ok 1
    ∧ simC2.people.length = 2 ∧ (1 : ℚ) ≠ (2 : ℚ) := by
  have h : ((dayStep oracleC2 dataC2 simC2 0).map (fun s2 =>
      (s2.results.series .n_susceptible).getD 0 0 + (s2.results.series .n_exposed).getD 0 0))
      = .ok ((((1 : Nat) : ℚ) - ((0 : ℚ) + 1)) + ((0 : ℚ) + 1)) := by rfl
  have h2 : (((1 : Nat) : ℚ) - ((0 : ℚ) + 1)) + ((0 : ℚ) + 1) = 1 := by norm_num
  exact ⟨h2 ▸ h, rfl, by norm_num⟩

/-- C2 (amended): for every day that completes, the recorded
active-susceptible(t) plus the recorded active-exposed(t) equals the size
of the active population Immediately AFTER that day's diagnosis removals
(the store `n_susceptible[t] = len(self.people) - n_exposed[t]` runs after
the pops). -/
theorem susceptible_plus_exposed_eq_postsize (oracle : Oracle) (data : Data)
    (s s2 : SimState) (t : Nat)
    (ht : t < (s.results.series .n_susceptible).length)
    (h : dayStep oracle data s t = .ok s2) :
    (s2.results.series .n_susceptible).getD t 0 + (s2.results.series .n_exposed).getD t 0
      = (s2.people.length : ℚ) := by
  obtain ⟨s1, h1, rfl⟩ := dayStep_ok h
  have hinv := dayMain_inv h1
    (show StInv (parsCore s.pars) (fun k => (s.results.series k).length) s from
      ⟨rfl, fun k => rfl⟩)
  have hlen : t < (s1.results.series .n_susceptible).length := by
    rw [hinv.2 ResKey.n_susceptible]; exact ht
  rw [storeStep_people, storeStep_series_n_exposed,
      storeStep_series_n_susceptible t s1 hlen]
  ring

/-- Witness for the amended C2 statement at a concrete day that completes:
an empty-population day records susceptible + exposed = 0 = active size. -/
theorem susceptible_plus_exposed_eq_postsize_witness :
    ((storeStep 0 simA).results.series .n_susceptible).getD 0 0
      + ((storeStep 0 simA).results.series .n_exposed).getD 0 0
      = ((storeStep 0 simA).people.length : ℚ) := by
  exact susceptible_plus_exposed_eq_postsize oracleA dataA simA (storeStep 0 simA) 0
    (by decide) (by rfl)

/-- C3 counterexample: a day on which the recovery transition fires leaves
the agent with the recovered flag set and the exposed flag CLEARED, so the
claimed invariant `recovered ⇒ exposed ∧ ¬infectious` fails in its
`exposed` conjunct at this point of the run. -/
theorem recovered_agent_not_exposed_cex :
    (dayStep oracleC2 dataA simC3 0).map
        (fun s2 => s2.people.map (fun p => (p.recovered, p.exposed)))
      = .ok [(true, false)] := by rfl

/-- C3 (amended): when the recovery check fires for an infectious agent
(current day at or past its `date_recovered`), the agent is left with
recovered set and BOTH exposed and infectious cleared, and the day's
recovery count is incremented. -/
theorem recovery_clears_exposed_and_infectious (oracle : Oracle) (t i : Nat)
    (s : SimState) (p : Person) (dr : Int)
    (hget : s.people.get? i = some p) (hinf : p.infectious = true)
    (hdr : p.date_recovered = some dr) (hle : dr ≤ (t : Int)) :
    infectiousStep oracle t i s = .ok { s with
      people := s.people.set i { p with exposed := false, infectious := false, recovered := true }
      results := s.results.inc .recoveries t } := by
  unfold infectiousStep
  rw [hget]
  simp [hinf, hdr, hle]

/-- Witness for the amended C3 statement at a concrete recovery day. -/
theorem recovery_clears_exposed_and_infectious_witness :
    infectiousStep oracleC2 0 0 simC3 = .ok { simC3 with
      people := simC3.people.set 0
        { personRecDue with exposed := false, infectious := false, recovered := true }
      results := simC3.results.inc .recoveries 0 } := by
  exact recovery_clears_exposed_and_infectious oracleC2 0 0 simC3 personRecDue 0
    rfl rfl rfl (by decide)


theorem cumsumFrom_getD : ∀ (l : List ℚ) (a : ℚ) (i : Nat), i < l.length →
    (cumsumFrom a l).getD i 0 = a + (l.take (i + 1)).sum := by
  intro l
  induction l with
  | nil => intro a i h; exact absurd h (Nat.not_lt_zero i)
  | cons x xs ih =>
    intro a i h
    cases i with
    | zero => simp [cumsumFrom]
    | succ n =>
      have h2 := ih (a + x) n (Nat.lt_of_succ_lt_succ h)
      simp only [cumsumFrom, List.getD_cons_succ, List.take_succ_cons, List.sum_cons]
      rw [h2]
      ring

theorem runBody_ok {oracle : Oracle} {data : Data} {s s2 : SimState} {k : Nat}
    (h : runBody oracle data s k = .ok s2) : ∃ sd, s2 = cumStep sd := by
  unfold runBody at h
  simp only [bind, Except.bind] at h
  split at h
  · cases h
  · split at h
    · cases h
    · rename_i sd hsd
      cases h
      exact ⟨sd, rfl⟩

theorem runNoCalc_ok {oracle : Oracle} {data : Data} {s s2 : SimState} {k : Nat}
    (h : runNoCalc oracle data s k = .ok s2) : ∃ sd, s2 = setReady (cumStep sd) := by
  unfold runNoCalc at h
  cases h1 : runBody oracle data s k with
  | error e => rw [h1] at h; simp [Except.map] at h
  | ok s1 =>
    rw [h1] at h
    simp only [Except.map, Except.ok.injEq] at h
    obtain ⟨sd, rfl⟩ := runBody_ok h1
    exact ⟨sd, h.symm⟩

/-- C4: after the day loop of a completed run, each cumulative series
equals, at every day index, the running prefix sum of its daily series. -/
theorem cumulative_series_are_prefix_sums (oracle : Oracle) (data : Data)
    (s s2 : SimState) (k : Nat) (h : runNoCalc oracle data s k = .ok s2) :
    ∀ i, i < npts s.pars →
      ((s2.results.series .cum_exposed).getD i 0
          = ((s2.results.series .infections).take (i + 1)).sum
        ∧ (s2.results.series .cum_tested).getD i 0
          = ((s2.results.series .tests).take (i + 1)).sum
        ∧ (s2.results.series .cum_diagnosed).getD i 0
          = ((s2.results.series .diagnoses).take (i + 1)).sum) := by
  have hlen := (runNoCalc_inv h).2
  obtain ⟨sd, rfl⟩ := runNoCalc_ok h
  intro i hi
  refine ⟨?_, ?_, ?_⟩
  · show (cumsum (sd.results.series .infections)).getD i 0
      = ((sd.results.series .infections).take (i + 1)).sum
    have h3 : (sd.results.series .infections).length = npts s.pars := hlen ResKey.infections
    rw [cumsum, cumsumFrom_getD _ _ _ (h3 ▸ hi), zero_add]
  · show (cumsum (sd.results.series .tests)).getD i 0
      = ((sd.results.series .tests).take (i + 1)).sum
    have h3 : (sd.results.series .tests).length = npts s.pars := hlen ResKey.tests
    rw [cumsum, cumsumFrom_getD _ _ _ (h3 ▸ hi), zero_add]
  · show (cumsum (sd.results.series .diagnoses)).getD i 0
      = ((sd.results.series .diagnoses).take (i + 1)).sum
    have h3 : (sd.results.series .diagnoses).length = npts s.pars := hlen ResKey.diagnoses
    rw [cumsum, cumsumFrom_getD _ _ _ (h3 ▸ hi), zero_add]

/-- Witness for C4 at a concrete completed seed-free run. -/
theorem cumulative_series_are_prefix_sums_witness :
    runNoCalc oracleA dataA simA 0 = .ok C4resState
    ∧ ((C4resState.results.series .cum_exposed).getD 0 0
        = ((C4resState.results.series .infections).take (0 + 1)).sum
      ∧ (C4resState.results.series .cum_tested).getD 0 0
        = ((C4resState.results.series .tests).take (0 + 1)).sum
      ∧ (C4resState.results.series .cum_diagnosed).getD 0 0
        = ((C4resState.results.series .diagnoses).take (0 + 1)).sum) := by
  have hrun : runNoCalc oracleA dataA simA 0 = .ok C4resState := by rfl
  exact ⟨hrun,
    cumulative_series_are_prefix_sums oracleA dataA simA C4resState 0 hrun 0 (by decide)⟩

/-- C5: the likelihood operation (a) on a ready sim does not run the day
loop: it only scores the existing diagnoses series and stores the scalar;
(b) is idempotent on a ready sim: a second call returns the same scalar and
the same state; (c) on a sim whose day loop has not completed, it first
runs the simulation once with `calc_likelihood=False` and then scores. -/
theorem likelihood_control_flow_and_idempotence (oracle : Oracle) (ext : Ext) (data : Data) :
    (∀ s : SimState, s.results.ready = true →
        likelihood oracle ext data s
          = (score ext data (s.results.series .diagnoses)).map (fun ll =>
              (ll, { s with results := { s.results with likelihood := some ll } })))
    ∧ (∀ (s s2 : SimState) (ll : ℚ), s.results.ready = true →
        likelihood oracle ext data s = .ok (ll, s2) →
        likelihood oracle ext data s2 = .ok (ll, s2))
    ∧ (∀ s : SimState, s.results.ready = false →
        likelihood oracle ext data s
          = (runNoCalc oracle data s 1).bind (fun s1 =>
              (score ext data (s1.results.series .diagnoses)).map (fun ll =>
                (ll, { s1 with results := { s1.results with likelihood := some ll } })))) := by
  have hready : ∀ s : SimState, s.results.ready = true →
      likelihood oracle ext data s
        = (score ext data (s.results.series .diagnoses)).map (fun ll =>
            (ll, { s with results := { s.results with likelihood := some ll } })) := by
    intro s h
    unfold likelihood
    rw [h]
    cases hsc : score ext data (s.results.series .diagnoses) with
    | error e => simp [bind, Except.bind, hsc, Except.map]
    | ok ll => simp [bind, Except.bind, hsc, Except.map]
  refine ⟨hready, ?_, ?_⟩
  · intro s s2 ll h hcall
    rw [hready s h] at hcall
    cases hsc : score ext data (s.results.series .diagnoses) with
    | error e => rw [hsc] at hcall; simp [Except.map] at hcall
    | ok l0 =>
      rw [hsc] at hcall
      simp only [Except.map, Except.ok.injEq, Prod.mk.injEq] at hcall
      obtain ⟨h1, h2⟩ := hcall
      subst h2
      subst h1
      have hr2 : ({ s with results := { s.results with likelihood := some l0 } }
          : SimState).results.ready = true := h
      rw [hready _ hr2]
      have hsc2 : score ext data
          (({ s with results := { s.results with likelihood := some l0 } }
            : SimState).results.series .diagnoses) = .ok l0 := hsc
      rw [hsc2]
      rfl
  · intro s h
    unfold likelihood
    rw [h]
    cases hrun : runNoCalc oracle data s 1 with
    | error e => simp [bind, Except.bind, hrun, Except.bind]
    | ok s1 =>
      simp only [bind, Except.bind, hrun]
      cases hsc : score ext data (s1.results.series .diagnoses) with
      | error e => simp [hsc, Except.map, Except.bind]
      | ok ll => simp [hsc, Except.map, Except.bind]

/-- Witness for C5: a concrete ready sim, its scored result, and the
idempotent second call. -/
theorem likelihood_control_flow_and_idempotence_witness :
    simReady.results.ready = true
    ∧ likelihood oracleA extA dataPos simReady = .ok (llA, simReadyAfter)
    ∧ likelihood oracleA extA dataPos simReadyAfter = .ok (llA, simReadyAfter)
    ∧ llA = 5 := by
  have h1 : likelihood oracleA extA dataPos simReady = .ok (llA, simReadyAfter) := by rfl
  refine ⟨rfl, h1, ?_, by norm_num [llA, extA]⟩
  exact (likelihood_control_flow_and_idempotence oracleA extA dataPos).2.1
    simReady simReadyAfter llA rfl h1

/-- C6 counterexample: base population-size parameter 10 split over 4
replicas gives each replica `10 / 4 = 2`; the merge multiplies back to
`2 * 4 = 8`, not the original 10. -/
theorem multi_run_popsize_not_restored_cex :
    (multi_run (fun _ => oracleA) dataA simM 4).map (fun s => s.pars.n) = .ok 8
    ∧ simM.pars.n = 10 ∧ (8 : Nat) ≠ 10 := ⟨by rfl, rfl, by decide⟩

theorem mergeOne_pars {a b o : SimState} (h : mergeOne a b = .ok o) : o.pars = a.pars := by
  unfold mergeOne at h
  simp only [bind, Except.bind] at h
  split at h
  · cases h
  · cases h; rfl

theorem foldlM_mergeOne_pars : ∀ (l : List SimState) (a out : SimState),
    l.foldlM mergeOne a = .ok out → out.pars = a.pars := by
  intro l
  induction l with
  | nil =>
    intro a out h
    simp only [List.foldlM_nil] at h
    cases h
    rfl
  | cons b l ih =>
    intro a out h
    simp only [List.foldlM_cons] at h
    cases hm : mergeOne a b with
    | error e => rw [hm] at h; simp [Bind.bind, Except.bind] at h
    | ok a2 =>
      rw [hm] at h
      simp only [Bind.bind, Except.bind] at h
      exact (ih a2 out h).trans (mergeOne_pars hm)

/-- C6 (amended): replica `i` of the ensemble gets a copy of the base
configuration with seed `base + i` and population-size parameter `N / k`
(integer division); the merged output's population-size parameter is
`(N / k) * k`, which equals the original `N` only when `k` divides `N`. -/
theorem multi_run_replicas_and_merged_popsize (orig : SimState) (k : Nat) :
    (∀ i, i < k → (multi_run_sims orig k).get? i
        = some { orig with pars := { orig.pars with seed := orig.pars.seed + (i : Int)
                                                    n := orig.pars.n / k } })
    ∧ (∀ (oracles : Nat → Oracle) (data : Data) (out : SimState),
        multi_run oracles data orig k = .ok out →
        out.pars.n = (orig.pars.n / k) * k) := by
  constructor
  · intro i hi
    simp [multi_run_sims, replicaAt, List.get?_eq_getElem?, List.getElem?_map,
      List.getElem?_range, hi]
  · intro oracles data out h
    unfold multi_run at h
    simp only [bind, Except.bind] at h
    split at h
    · cases h
    · rename_i finished hfin
      split at h
      · cases h
      · rename_i s0 rest
        cases k with
        | zero => simp [List.range_zero, List.mapM, List.mapM.loop, pure, Except.pure] at hfin
        | succ m =>
          rw [List.range_succ_eq_map] at hfin
          simp only [List.mapM_cons, bind, Except.bind, pure, Except.pure] at hfin
          cases hx : single_run (oracles 0) data (replicaAt orig (m + 1) 0) with
          | error e => rw [hx] at hfin; cases hfin
          | ok x =>
            rw [hx] at hfin
            cases hxs : ((List.range m).map (fun i => i + 1)).mapM
                (fun i => single_run (oracles i) data (replicaAt orig (m + 1) i)) with
            | error e => rw [hxs] at hfin; cases hfin
            | ok xs =>
              rw [hxs] at hfin
              simp only [Except.ok.injEq, List.cons.injEq] at hfin
              obtain ⟨hfx, hfxs⟩ := hfin
              rw [hfx] at hx
              have h0 := runNoCalc_inv hx
              have h0n : s0.pars.n = orig.pars.n / (m + 1) := congrArg Pars.n h0.1
              have hout := foldlM_mergeOne_pars rest _ out h
              have hn2 : out.pars.n = s0.pars.n * (m + 1) := congrArg Pars.n hout
              rw [hn2, h0n]

/-- Witness for the amended C6 statement: replica 2 of a 4-replica split of
a base sim with population-size 10, and the merged output's parameter. -/
theorem multi_run_replicas_and_merged_popsize_witness :
    (multi_run_sims simM 4).get? 2
      = some { simM with pars := { simM.pars with seed := simM.pars.seed + ((2 : Nat) : Int)
                                                  n := simM.pars.n / 4 } }
    ∧ C6out.pars.n = (simM.pars.n / 4) * 4 := by
  refine ⟨(multi_run_replicas_and_merged_popsize simM 4).1 2 (by decide), ?_⟩
  exact (multi_run_replicas_and_merged_popsize simM 4).2 (fun _ => oracleA) dataA C6out (by rfl)

/-- C7: the daily testing block is a silent no-op (no tests recorded, no
diagnoses, no exception) whenever the day index is beyond the external
daily-test series, or that day's value is missing (NaN), or it is zero. -/
theorem testing_skipped_outside_defined_days (oracle : Oracle) (data : Data) (t : Nat)
    (s : SimState) (tps : List ℚ)
    (h : data.new_tests.length ≤ t ∨ data.new_tests.getD t none = none
        ∨ data.new_tests.getD t none = some 0) :
    testingStep oracle data t s tps = .ok s := by
  unfold testingStep
  rcases h with h | h | h
  · rw [if_neg (Nat.not_lt.mpr h)]
  · by_cases ht : t < data.new_tests.length
    · rw [if_pos ht, h]
    · rw [if_neg ht]
  · by_cases ht : t < data.new_tests.length
    · rw [if_pos ht, h]
      simp
    · rw [if_neg ht]

/-- Witness for C7: a day beyond the series, a NaN day and a zero day are
all skipped with the state unchanged. -/
theorem testing_skipped_outside_defined_days_witness :
    dataShort.new_tests.length ≤ 5
    ∧ testingStep oracleA dataShort 5 simA [] = .ok simA
    ∧ testingStep oracleA dataShort 1 simA [] = .ok simA
    ∧ testingStep oracleA dataShort 2 simA [] = .ok simA := by
  refine ⟨by decide, ?_, ?_, ?_⟩
  · exact testing_skipped_outside_defined_days oracleA dataShort 5 simA []
      (Or.inl (by decide))
  · exact testing_skipped_outside_defined_days oracleA dataShort 1 simA []
      (Or.inr (Or.inl (by decide)))
  · exact testing_skipped_outside_defined_days oracleA dataShort 2 simA []
      (Or.inr (Or.inr (by decide)))

/-- C8: the uid of a person is an (unchecked) random draw; when two draws
collide, both Person records carry the same uid and the odict insert
silently replaces the earlier person, so a configuration asking for 2
agents ends up with a single one and the uid was reused. -/
theorem uid_collision_drops_person :
    oracle8.randint 1 = 7 ∧ oracle8.randint 3 = 7
    ∧ (init_people parsA oracle8 0 0).map (fun pc => pc.1.map (fun p => p.uid)) = .ok [7]
    ∧ parsA.n_guests + parsA.n_crew = 2 := ⟨rfl, rfl, by rfl, rfl⟩

theorem lt_of_get?_eq_some {α : Type} {l : List α} {i : Nat} {a : α}
    (h : l.get? i = some a) : i < l.length := by
  by_contra hc
  rw [List.get?_eq_none.mpr (Nat.le_of_not_lt hc)] at h
  cases h

/-- C9: the transmission skip condition checks only the target's exposed
flag: a recovered (hence no-longer-exposed) agent drawn as a contact target
on a successful Bernoulli trial is re-exposed -- its exposed flag is set
again while recovered stays set, the day's new-infections count is
incremented again, and all three scheduled dates are overwritten. -/
theorem transmission_skip_checks_only_exposed (oracle : Oracle) (t : Nat) (s : SimState)
    (ci : Nat) (target : Person)
    (hget : s.people.get? ci = some target) (hexp : target.exposed = false)
    (hrec : target.recovered = true)
    (hbt : oracle.bt s.ctr s.pars.r_contact = true)
    (ht : t < (s.results.series .infections).length) :
    contactStep oracle t s ci = .ok { s with
        ctr := s.ctr + 1 + 2
        results := s.results.inc .infections t
        people := s.people.set ci { target with
          exposed := true
          date_exposed := some (t : Int)
          date_infectious := some ((t : Int)
            + pyRound (oracle.normal (s.ctr + 1) s.pars.incub s.pars.incub_std))
          date_recovered := some ((t : Int)
            + pyRound (oracle.normal (s.ctr + 1) s.pars.incub s.pars.incub_std)
            + pyRound (oracle.normal (s.ctr + 1 + 1) s.pars.dur s.pars.dur_std)) } }
    ∧ ({ target with
          exposed := true
          date_exposed := some (t : Int)
          date_infectious := some ((t : Int)
            + pyRound (oracle.normal (s.ctr + 1) s.pars.incub s.pars.incub_std))
          date_recovered := some ((t : Int)
            + pyRound (oracle.normal (s.ctr + 1) s.pars.incub s.pars.incub_std)
            + pyRound (oracle.normal (s.ctr + 1 + 1) s.pars.dur s.pars.dur_std)) }
        : Person).recovered = true
    ∧ ((s.results.inc .infections t).series .infections).getD t 0
        = (s.results.series .infections).getD t 0 + 1 := by
  refine ⟨?_, hrec, ?_⟩
  · unfold contactStep
    simp only [hbt, if_true]
    rw [show ({ s with ctr := s.ctr + 1 } : SimState).people.get? ci
        = s.people.get? ci from rfl, hget]
    simp [hexp]
  · show ((s.results.series .infections).set t
      ((s.results.series .infections).getD t 0 + 1)).getD t 0 = _
    exact getD_set_self _ _ _ ht

/-- Witness for C9 at a concrete recovered target. -/
theorem transmission_skip_checks_only_exposed_witness :
    contactStep oracleA 2 simC9 1 = .ok { simC9 with
        ctr := simC9.ctr + 1 + 2
        results := simC9.results.inc .infections 2
        people := simC9.people.set 1 { personRecTarget with
          exposed := true
          date_exposed := some ((2 : Nat) : Int)
          date_infectious := some (((2 : Nat) : Int)
            + pyRound (oracleA.normal (simC9.ctr + 1) simC9.pars.incub simC9.pars.incub_std))
          date_recovered := some (((2 : Nat) : Int)
            + pyRound (oracleA.normal (simC9.ctr + 1) simC9.pars.incub simC9.pars.incub_std)
            + pyRound (oracleA.normal (simC9.ctr + 1 + 1) simC9.pars.dur simC9.pars.dur_std)) } }
    ∧ ({ personRecTarget with
          exposed := true
          date_exposed := some ((2 : Nat) : Int)
          date_infectious := some (((2 : Nat) : Int)
            + pyRound (oracleA.normal (simC9.ctr + 1) simC9.pars.incub simC9.pars.incub_std))
          date_recovered := some (((2 : Nat) : Int)
            + pyRound (oracleA.normal (simC9.ctr + 1) simC9.pars.incub simC9.pars.incub_std)
            + pyRound (oracleA.normal (simC9.ctr + 1 + 1) simC9.pars.dur simC9.pars.dur_std)) }
        : Person).recovered = true
    ∧ ((simC9.results.inc .infections 2).series .infections).getD 2 0
        = (simC9.results.series .infections).getD 2 0 + 1 :=
  transmission_skip_checks_only_exposed oracleA 2 simC9 1 personRecTarget
    rfl rfl rfl rfl (by decide)

theorem scoreGo_ok_of_len (ext : Ext) (dgs : List ℚ) :
    ∀ (rest : List (Option ℚ)) (d : Nat) (acc : ℚ), d + rest.length ≤ dgs.length →
      ∃ q, scoreGo ext dgs d acc rest = .ok q := by
  intro rest
  induction rest with
  | nil => intro d acc h; exact ⟨acc, rfl⟩
  | cons datum rest ih =>
    intro d acc h
    simp only [List.length_cons] at h
    cases datum with
    | none => exact ih (d + 1) acc (by omega)
    | some v =>
      have hd : d < dgs.length := by omega
      cases hg : dgs.get? d with
      | none => exact absurd hd (Nat.not_lt.mpr (List.get?_eq_none.mp hg))
      | some est =>
        simp only [scoreGo]
        rw [hg]
        exact ih (d + 1) _ (by omega)

theorem scoreGo_error_of_defined_past (ext : Ext) (dgs : List ℚ) :
    ∀ (rest : List (Option ℚ)) (d : Nat) (acc : ℚ) (j : Nat), j < rest.length →
      (rest.getD j none).isSome = true → dgs.length ≤ d + j →
      scoreGo ext dgs d acc rest = .error .indexError := by
  intro rest
  induction rest with
  | nil => intro d acc j hj; exact absurd hj (Nat.not_lt_zero j)
  | cons datum rest ih =>
    intro d acc j hj hdef hlen
    cases j with
    | zero =>
      cases datum with
      | none => simp at hdef
      | some v =>
        have hg : dgs.get? d = none := List.get?_eq_none.mpr (by omega)
        simp only [scoreGo]
        rw [hg]
    | succ j2 =>
      cases datum with
      | none =>
        exact ih (d + 1) acc j2 (by simpa using hj) (by simpa using hdef) (by omega)
      | some v =>
        cases hg : dgs.get? d with
        | none =>
          simp only [scoreGo]
          rw [hg]
        | some est =>
          simp only [scoreGo]
          rw [hg]
          exact ih (d + 1) _ j2 (by simpa using hj) (by simpa using hdef) (by omega)

/-- C10: the likelihood scorer walks the whole observed daily-diagnosis
series by index and reads the modeled diagnoses array at each defined
index: it succeeds whenever the observed series is no longer than the
modeled array, it raises an index error as soon as a defined observed
entry lies at an index beyond the modeled array (rather than skipping it),
and a completed run's modeled diagnoses array has exactly `npts` entries. -/
theorem likelihood_requires_observed_within_npts (ext : Ext) :
    (∀ (data : Data) (dgs : List ℚ), data.new_positives.length ≤ dgs.length →
        ∃ q, score ext data dgs = .ok q)
    ∧ (∀ (data : Data) (dgs : List ℚ) (d : Nat), d < data.new_positives.length →
        dgs.length ≤ d → (data.new_positives.getD d none).isSome = true →
        score ext data dgs = .error .indexError)
    ∧ (∀ (oracle : Oracle) (data : Data) (s s2 : SimState) (k : Nat),
        runNoCalc oracle data s k = .ok s2 →
        (s2.results.series .diagnoses).length = npts s.pars) := by
  refine ⟨?_, ?_, ?_⟩
  · intro data dgs h
    exact scoreGo_ok_of_len ext dgs data.new_positives 0 0 (by omega)
  · intro data dgs d h1 h2 h3
    exact scoreGo_error_of_defined_past ext dgs data.new_positives 0 0 d h1 h3 (by omega)
  · intro oracle data s s2 k h
    exact (runNoCalc_inv h).2 ResKey.diagnoses

/-- Witness for C10: a one-entry observed series scores against a
one-entry modeled array, errors against an empty one, and a concrete
completed run has `npts` modeled entries. -/
theorem likelihood_requires_observed_within_npts_witness :
    (score extA dataPos [(0 : ℚ)]).isOk = true
    ∧ score extA dataPos [] = .error .indexError
    ∧ (C4resState.results.series .diagnoses).length = npts simA.pars := by
  refine ⟨?_, ?_, ?_⟩
  · obtain ⟨q, hq⟩ := (likelihood_requires_observed_within_npts extA).1 dataPos
      [(0 : ℚ)] (by decide)
    rw [hq]
    rfl
  · exact (likelihood_requires_observed_within_npts extA).2.1 dataPos [] 0
      (by decide) (by decide) (by decide)
  · exact (likelihood_requires_observed_within_npts extA).2.2 oracleA dataA simA
      C4resState 0 (by rfl)

end CovidAbm

